import Mathlib

/-!
Shallow embedding of `src/app.py` (o8t-sre-tech-test): an in-memory
read-through cache in front of a DynamoDB table scan, served by a Lambda
handler.

Modelling conventions:
* Wall-clock readings (`time.time()`) are rationals, passed explicitly in
  the order the source reads the clock.
* Python values that can appear in a record / JSON body are the inductive
  `PyVal`; a DynamoDB `Decimal` is `PyVal.pdec` carrying its exact value,
  a float is `PyVal.pfloat` (the value it denotes; binary rounding of the
  `float()` conversion is outside the numeric claims, which accept
  precision loss).
* `table.scan()` is an input of type `Except String (List Record)`:
  `.error e` models the scan raising an exception with message `e`.
* The module-level `cache` dict is the explicit `CacheState` threaded
  through and returned.
* Python `round(x, 2)` is `round2` (round to 2 decimal places; ties are
  immaterial to every statement below).
-/

/-- A Python value as it occurs in records and JSON bodies. -/
inductive PyVal where
  | pstr : String → PyVal
  | pbool : Bool → PyVal
  | pint : Int → PyVal
  | pdec : ℚ → PyVal
  | pfloat : ℚ → PyVal
  | plist : List PyVal → PyVal
  | pdict : List (String × PyVal) → PyVal


/-- A record from the table: a schema-less mapping of field names to values. -/
abbrev Record := List (String × PyVal)

/-- The module-level `cache = {'data': None, 'timestamp': 0}` dict of app.py:
`data` is `None` (`none`) or the last list of scanned items. -/
structure CacheState where
  data : Option (List Record)
  timestamp : ℚ


/-- The cache at process start: `{'data': None, 'timestamp': 0}`. -/
def initialCache : CacheState := ⟨none, 0⟩

/-- Python truthiness of `cache['data']`: `None` and `[]` are falsy. -/
def dataTruthy : Option (List Record) → Bool
  | none => false
  | some l => !l.isEmpty

/-- The validity test on line 36 of app.py:
`cache['data'] and (current_time - cache['timestamp']) < CACHE_TTL`. -/
def cacheValid (ttl now : ℚ) (st : CacheState) : Bool :=
  dataTruthy st.data && decide (now - st.timestamp < ttl)

/-- Embedding of `get_cached_data()` (app.py lines 28-69). `now` is the `current_time`
reading on line 33; `scan` is the outcome of `table.scan()`.  Returns the
items, the cache state after the call, and the hit flag (the
`cache_hit` / `cache_miss` log event): on a valid cache it returns the
cached data unchanged; otherwise it fetches, and on success overwrites
both `cache['data']` and `cache['timestamp']`; the scan's exception
propagates with the cache untouched. -/
def get_cached_data (ttl now : ℚ) (scan : Except String (List Record))
    (st : CacheState) : Except String (List Record × CacheState × Bool) :=
  if cacheValid ttl now st then
    .ok (st.data.getD [], st, true)
  else
    match scan with
    | .error e => .error e
    | .ok items => .ok (items, ⟨some items, now⟩, false)

/-- Python `round(x, 2)`. -/
def round2 (q : ℚ) : ℚ := ((round (q * 100) : ℤ) : ℚ) / 100

/-- The success dict literal of app.py lines 103-108; exactly the four keys
`data`, `count`, `cached`, `cache_age_seconds`. -/
structure SuccessBody where
  data : List Record
  count : ℕ
  cached : Bool
  cache_age_seconds : ℚ


/-- The failure dict literal of app.py lines 153-156. -/
structure ErrorBody where
  error : String
  request_id : String


/-- The response body before `json.dumps`. -/
inductive BodyV where
  | ok : SuccessBody → BodyV
  | err : ErrorBody → BodyV


/-- The header mapping built on lines 124-129 / 148-152. `xCacheStatus` is
`none` on the error path, where the source emits no `X-Cache-Status` key.
`xResponseTimeMs` is the number inside the `"...ms"` string. -/
structure RespHeaders where
  contentType : String
  xCacheStatus : Option String
  xRequestId : String
  xResponseTimeMs : ℚ


/-- A Lambda proxy response: status code, headers, body. -/
structure Response where
  statusCode : ℕ
  headers : RespHeaders
  body : BodyV


/-- Embedding of `lambda_handler` (app.py lines 71-157).  The clock readings, in source
order: `tStart` (line 82 `start_time`), `tGet` (line 33 inside
`get_cached_data`), `tChk` (line 102, the `is_cached` re-check), `tAge`
(line 107, `cache_age_seconds`), `tEnd` (line 111 / 135, duration).
Returns the response together with the cache state after the call. -/
def lambda_handler (ttl : ℚ) (requestId : String)
    (tStart tGet tChk tAge tEnd : ℚ)
    (scan : Except String (List Record)) (st : CacheState) :
    Response × CacheState :=
  match get_cached_data ttl tGet scan st with
  | .ok (items, st2, _hit) =>
      let is_cached : Bool := decide (tChk - st2.timestamp < ttl)
      ({ statusCode := 200,
         headers := { contentType := "application/json",
                      xCacheStatus := some (if is_cached then "HIT" else "MISS"),
                      xRequestId := requestId,
                      xResponseTimeMs := round2 ((tEnd - tStart) * 1000) },
         body := .ok { data := items, count := items.length,
                       cached := is_cached,
                       cache_age_seconds := round2 (tAge - st2.timestamp) } },
       st2)
  | .error _ =>
      ({ statusCode := 500,
         headers := { contentType := "application/json",
                      xCacheStatus := none,
                      xRequestId := requestId,
                      xResponseTimeMs := round2 ((tEnd - tStart) * 1000) },
         body := .err { error := "Internal Server Error",
                        request_id := requestId } },
       st)

mutual

/-- Embedding of `json.dumps(..., cls=DecimalEncoder)` over a value tree: every
`Decimal` is replaced by `float(obj)` (app.py lines 21-25), all other
values serialize natively. -/
def DecimalEncoder : PyVal → PyVal
  | .pdec q => .pfloat q
  | .pstr s => .pstr s
  | .pbool b => .pbool b
  | .pint n => .pint n
  | .pfloat q => .pfloat q
  | .plist l => .plist (DecimalEncoderList l)
  | .pdict l => .pdict (DecimalEncoderDict l)

/-- Action of `DecimalEncoder` on the elements of a JSON array. -/
def DecimalEncoderList : List PyVal → List PyVal
  | [] => []
  | v :: vs => DecimalEncoder v :: DecimalEncoderList vs

/-- Action of `DecimalEncoder` on the values of a JSON object. -/
def DecimalEncoderDict : List (String × PyVal) → List (String × PyVal)
  | [] => []
  | (k, v) :: vs => (k, DecimalEncoder v) :: DecimalEncoderDict vs

end

mutual

/-- Holds (`true`) when no `Decimal` representation occurs anywhere in the value. -/
def noDecimal : PyVal → Bool
  | .pdec _ => false
  | .pstr _ => true
  | .pbool _ => true
  | .pint _ => true
  | .pfloat _ => true
  | .plist l => noDecimalList l
  | .pdict l => noDecimalDict l

/-- Conjunction of `noDecimal` over the elements of a JSON array. -/
def noDecimalList : List PyVal → Bool
  | [] => true
  | v :: vs => noDecimal v && noDecimalList vs

/-- Conjunction of `noDecimal` over the values of a JSON object. -/
def noDecimalDict : List (String × PyVal) → Bool
  | [] => true
  | (_, v) :: vs => noDecimal v && noDecimalDict vs

end

/-- The JSON tree of the success body (line 130:
`json.dumps(response_body, cls=DecimalEncoder)`). -/
def serializeSuccess (b : SuccessBody) : PyVal :=
  DecimalEncoder (.pdict
    [("data", .plist (b.data.map fun r => .pdict r)),
     ("count", .pint b.count),
     ("cached", .pbool b.cached),
     ("cache_age_seconds", .pfloat b.cache_age_seconds)])

/-- The JSON tree of the error body (lines 153-156). -/
def serializeError (b : ErrorBody) : PyVal :=
  .pdict [("error", .pstr b.error), ("request_id", .pstr b.request_id)]

/-- The outward JSON body of a response. -/
def serializeBody : BodyV → PyVal
  | .ok b => serializeSuccess b
  | .err b => serializeError b

/-- The record `{model_name: "GPT-4", score: Decimal("95.5")}` of
Scenario A. -/
def testRecord : Record :=
  [("model_name", .pstr "GPT-4"), ("score", .pdec (955/10))]

/-- The keys of a serialized JSON object, in order. -/
def pdictKeys : PyVal → List String
  | .pdict l => l.map Prod.fst
  | _ => []

/-- The `cached` field of a response body (`false` for an error body,
which has no such field). -/
def bodySaysCached : BodyV → Bool
  | .ok b => b.cached
  | .err _ => false

/-! ## Helper lemmas -/

theorem round2_zero : round2 0 = 0 := by simp [round2]

theorem round2_mono {a b : ℚ} (h : a ≤ b) : round2 a ≤ round2 b := by
  unfold round2
  have h1 : round (a * 100) ≤ round (b * 100) := by
    rw [round_eq, round_eq]
    exact Int.floor_mono (by linarith)
  have h2 : ((round (a * 100) : ℤ) : ℚ) ≤ ((round (b * 100) : ℤ) : ℚ) :=
    Int.cast_le.mpr h1
  linarith

theorem round2_nonneg {a : ℚ} (h : 0 ≤ a) : 0 ≤ round2 a := by
  have := round2_mono h
  rwa [round2_zero] at this

theorem dataTruthy_some {l : List Record} (h : l ≠ []) :
    dataTruthy (some l) = true := by
  cases l with
  | nil => exact absurd rfl h
  | cons a as => rfl

theorem cacheValid_eq_true {ttl now : ℚ} {st : CacheState} {items : List Record}
    (hdata : st.data = some items) (hne : items ≠ [])
    (hfresh : now - st.timestamp < ttl) : cacheValid ttl now st = true := by
  simp [cacheValid, hdata, dataTruthy_some hne, hfresh]

theorem get_cached_data_hit {ttl now : ℚ} {st : CacheState} {items : List Record}
    {scan : Except String (List Record)}
    (hdata : st.data = some items) (hne : items ≠ [])
    (hfresh : now - st.timestamp < ttl) :
    get_cached_data ttl now scan st = .ok (items, st, true) := by
  rw [get_cached_data.eq_def, if_pos]
  · rw [hdata]; rfl
  · exact cacheValid_eq_true hdata hne hfresh

theorem get_cached_data_miss_ok {ttl now : ℚ} {st : CacheState}
    {items : List Record} (hmiss : cacheValid ttl now st = false) :
    get_cached_data ttl now (.ok items) st = .ok (items, ⟨some items, now⟩, false) := by
  rw [get_cached_data.eq_def, if_neg]
  simp [hmiss]

theorem get_cached_data_miss_err {ttl now : ℚ} {st : CacheState} {e : String}
    (hmiss : cacheValid ttl now st = false) :
    get_cached_data ttl now (.error e) st = .error e := by
  rw [get_cached_data.eq_def, if_neg]
  simp [hmiss]

mutual

theorem noDecimal_encode : ∀ v : PyVal, noDecimal (DecimalEncoder v) = true
  | .pdec _ => by simp [DecimalEncoder, noDecimal]
  | .pstr _ => by simp [DecimalEncoder, noDecimal]
  | .pbool _ => by simp [DecimalEncoder, noDecimal]
  | .pint _ => by simp [DecimalEncoder, noDecimal]
  | .pfloat _ => by simp [DecimalEncoder, noDecimal]
  | .plist l => by simp [DecimalEncoder, noDecimal, noDecimal_encodeList l]
  | .pdict l => by simp [DecimalEncoder, noDecimal, noDecimal_encodeDict l]

theorem noDecimal_encodeList : ∀ l : List PyVal,
    noDecimalList (DecimalEncoderList l) = true
  | [] => by simp [DecimalEncoderList, noDecimalList]
  | v :: vs => by
      simp [DecimalEncoderList, noDecimalList, noDecimal_encode v,
        noDecimal_encodeList vs]

theorem noDecimal_encodeDict : ∀ l : List (String × PyVal),
    noDecimalDict (DecimalEncoderDict l) = true
  | [] => by simp [DecimalEncoderDict, noDecimalDict]
  | (k, v) :: vs => by
      simp [DecimalEncoderDict, noDecimalDict, noDecimal_encode v,
        noDecimal_encodeDict vs]

end

/-! ## Claims -/

/-- C1: Scenario A (cold start) evaluated on the code: with the cache empty,
ttl 300, all clock readings equal, and the data source returning the single
GPT-4 record, the handler succeeds with `count = 1` and that record as the
data — but the body reports `cached := true` and the header says `HIT`,
not the `cached:false` the claim states, because `is_cached` is recomputed
from elapsed time after the miss-triggered fetch already restamped the
cache. -/
theorem C1_cold_start_eval :
    (lambda_handler 300 "req-1" 1000 1000 1000 1000 1000 (.ok [testRecord])
        initialCache).1 =
      { statusCode := 200,
        headers := { contentType := "application/json",
                     xCacheStatus := some "HIT",
                     xRequestId := "req-1",
                     xResponseTimeMs := 0 },
        body := .ok { data := [testRecord], count := 1, cached := true,
                      cache_age_seconds := 0 } } ∧
    (lambda_handler 300 "req-1" 1000 1000 1000 1000 1000 (.ok [testRecord])
        initialCache).2 = ⟨some [testRecord], 1000⟩ := by
  constructor <;>
    norm_num [lambda_handler, get_cached_data, cacheValid, dataTruthy,
      initialCache, round2, round_eq, testRecord]

/-- C2 counterexample: an empty snapshot stored at time 0 is not returned at
time 1 even though 1 - 0 < 300: the validity test on line 36 requires the
cached data to be truthy (non-empty), so the call misses, consumes the data
source result, and restamps the cache. -/
theorem C2_counterexample :
    (1:ℚ) - 0 < 300 ∧
    get_cached_data 300 1 (.ok [testRecord]) ⟨some [], 0⟩ =
      .ok ([testRecord], ⟨some [testRecord], 1⟩, false) ∧
    get_cached_data 300 1 (.ok [testRecord]) ⟨some [], 0⟩ ≠
      .ok ([], ⟨some [], 0⟩, true) := by
  have hev : get_cached_data 300 1 (.ok [testRecord]) ⟨some [], 0⟩ =
      .ok ([testRecord], ⟨some [testRecord], 1⟩, false) := by
    norm_num [get_cached_data, cacheValid, dataTruthy]
  refine ⟨by norm_num, hev, ?_⟩
  rw [hev]
  simp [testRecord]

/-- C2 (amended): for a NON-EMPTY snapshot stored at t1 with no intervening
store, the validity check at t2 returns exactly that snapshot, without
touching the cache or the data source, iff t2 - t1 < ttl; otherwise the
data source is invoked again (storing a fresh snapshot on success,
propagating the scan's error on failure). -/
theorem C2_freshness (ttl t1 t2 : ℚ) (items : List Record)
    (scan : Except String (List Record)) (hne : items ≠ []) :
    (t2 - t1 < ttl →
      get_cached_data ttl t2 scan ⟨some items, t1⟩ =
        .ok (items, ⟨some items, t1⟩, true)) ∧
    (¬ t2 - t1 < ttl →
      get_cached_data ttl t2 scan ⟨some items, t1⟩ =
        match scan with
        | .ok fresh => .ok (fresh, ⟨some fresh, t2⟩, false)
        | .error e => .error e) := by
  constructor
  · intro h
    exact get_cached_data_hit rfl hne h
  · intro h
    have hmiss : cacheValid ttl t2 ⟨some items, t1⟩ = false := by
      simp [cacheValid, h]
    cases scan with
    | ok fresh => simpa using get_cached_data_miss_ok hmiss
    | error e => simpa using get_cached_data_miss_err hmiss

/-- C2 witness: a concrete warm-hit instance of the amended freshness
theorem. -/
theorem C2_witness :
    get_cached_data 300 10 (.ok []) ⟨some [testRecord], 0⟩ =
      .ok ([testRecord], ⟨some [testRecord], 0⟩, true) :=
  (C2_freshness 300 0 10 [testRecord] (.ok []) (by simp)).1 (by norm_num)

/-- C3: if the scan raises during handle (the cache was not valid, so the
fetch actually ran), the cache's snapshot and timestamp are identical
before and after the failed call, and the handler returns a 500 response
instead of propagating the exception. -/
theorem C3_no_mutation_on_failure (ttl : ℚ) (rid : String)
    (tS tG tC tA tE : ℚ) (e : String) (st : CacheState)
    (hmiss : cacheValid ttl tG st = false) :
    (lambda_handler ttl rid tS tG tC tA tE (.error e) st).2 = st ∧
    (lambda_handler ttl rid tS tG tC tA tE (.error e) st).1.statusCode = 500 := by
  have h := @get_cached_data_miss_err ttl tG st e hmiss
  simp [lambda_handler, h]

/-- C3 witness: failed fetch on the initial (empty, hence invalid) cache. -/
theorem C3_witness :
    (lambda_handler 300 "req-1" 0 0 0 0 0 (.error "boom") initialCache).2 =
      initialCache ∧
    (lambda_handler 300 "req-1" 0 0 0 0 0 (.error "boom")
        initialCache).1.statusCode = 500 :=
  C3_no_mutation_on_failure 300 "req-1" 0 0 0 0 0 "boom" initialCache
    (by simp [cacheValid, dataTruthy, initialCache])

/-- C4 counterexample: a snapshot is stored at time 0 and two warm hits
follow at times 0.001 and 0.002 — the clock strictly advances and both
calls are hits with `cached := true`, yet `cache_age_seconds` (the age
rounded to 2 decimal places) is 0 both times: it neither strictly
increases nor is it > 0 on a warm hit. -/
theorem C4_counterexample :
    (0:ℚ) < 1/1000 ∧ (1/1000:ℚ) < 2/1000 ∧ (2/1000:ℚ) - 0 < 300 ∧
    (lambda_handler 300 "req-1" (1/1000) (1/1000) (1/1000) (1/1000) (1/1000)
        (.ok []) ⟨some [testRecord], 0⟩).1.body =
      .ok ⟨[testRecord], 1, true, 0⟩ ∧
    (lambda_handler 300 "req-1" (2/1000) (2/1000) (2/1000) (2/1000) (2/1000)
        (.ok []) ⟨some [testRecord], 0⟩).1.body =
      .ok ⟨[testRecord], 1, true, 0⟩ := by
  refine ⟨by norm_num, by norm_num, by norm_num, ?_, ?_⟩ <;>
    norm_num [lambda_handler, get_cached_data, cacheValid, dataTruthy,
      round2, round_eq, testRecord]

/-- C4 (amended): repeated handler calls within the ttl window on a stored
non-empty snapshot all hit: they return the identical data payload and
count, report `cached := true`, leave the cache unchanged (so no
intervening miss occurs), and `cache_age_seconds` — the age rounded to two
decimal places — is nonnegative and nondecreasing as the clock advances. -/
theorem C4_idempotent_hit (ttl : ℚ) (rid : String) (t1 t2 t3 : ℚ)
    (items : List Record) (scanA scanB : Except String (List Record))
    (hne : items ≠ []) (h12 : t1 ≤ t2) (h23 : t2 ≤ t3)
    (h3 : t3 - t1 < ttl) :
    ((lambda_handler ttl rid t2 t2 t2 t2 t2 scanA ⟨some items, t1⟩).1.body =
        .ok ⟨items, items.length, true, round2 (t2 - t1)⟩) ∧
    ((lambda_handler ttl rid t3 t3 t3 t3 t3 scanB ⟨some items, t1⟩).1.body =
        .ok ⟨items, items.length, true, round2 (t3 - t1)⟩) ∧
    ((lambda_handler ttl rid t2 t2 t2 t2 t2 scanA ⟨some items, t1⟩).2 =
        ⟨some items, t1⟩) ∧
    ((lambda_handler ttl rid t3 t3 t3 t3 t3 scanB ⟨some items, t1⟩).2 =
        ⟨some items, t1⟩) ∧
    0 ≤ round2 (t2 - t1) ∧ round2 (t2 - t1) ≤ round2 (t3 - t1) := by
  have hf2 : t2 - t1 < ttl := by linarith
  have hh2 := @get_cached_data_hit ttl t2 ⟨some items, t1⟩ items scanA rfl hne hf2
  have hh3 := @get_cached_data_hit ttl t3 ⟨some items, t1⟩ items scanB rfl hne h3
  refine ⟨?_, ?_, ?_, ?_, round2_nonneg (by linarith), round2_mono (by linarith)⟩
  · simp [lambda_handler, hh2, hf2]
  · simp [lambda_handler, hh3, h3]
  · simp [lambda_handler, hh2]
  · simp [lambda_handler, hh3]

/-- C4 witness: two warm hits at times 1 and 2 on a snapshot stored at 0. -/
theorem C4_witness :
    ((lambda_handler 300 "req-1" 1 1 1 1 1 (.ok []) ⟨some [testRecord], 0⟩).1.body =
        .ok ⟨[testRecord], [testRecord].length, true, round2 (1 - 0)⟩) ∧
    ((lambda_handler 300 "req-1" 2 2 2 2 2 (.ok []) ⟨some [testRecord], 0⟩).1.body =
        .ok ⟨[testRecord], [testRecord].length, true, round2 (2 - 0)⟩) ∧
    ((lambda_handler 300 "req-1" 1 1 1 1 1 (.ok []) ⟨some [testRecord], 0⟩).2 =
        ⟨some [testRecord], 0⟩) ∧
    ((lambda_handler 300 "req-1" 2 2 2 2 2 (.ok []) ⟨some [testRecord], 0⟩).2 =
        ⟨some [testRecord], 0⟩) ∧
    0 ≤ round2 (1 - 0) ∧ round2 (1 - 0) ≤ round2 (2 - 0) :=
  C4_idempotent_hit 300 "req-1" 0 1 2 [testRecord] (.ok []) (.ok [])
    (by simp) (by norm_num) (by norm_num) (by norm_num)

/-- C5: on a retrieval failure the handler returns status 500 whose body is
exactly `{error: "Internal Server Error", request_id}` (also after
serialization: exactly those two keys), and the response does not depend
on the exception's message, so no internal error detail is exposed. -/
theorem C5_error_response_shape (ttl : ℚ) (rid : String)
    (tS tG tC tA tE : ℚ) (e : String) (st : CacheState)
    (hmiss : cacheValid ttl tG st = false) :
    ((lambda_handler ttl rid tS tG tC tA tE (.error e) st).1.statusCode = 500) ∧
    ((lambda_handler ttl rid tS tG tC tA tE (.error e) st).1.body =
      .err ⟨"Internal Server Error", rid⟩) ∧
    (serializeBody (lambda_handler ttl rid tS tG tC tA tE (.error e) st).1.body =
      .pdict [("error", .pstr "Internal Server Error"),
              ("request_id", .pstr rid)]) ∧
    (∀ e2 : String,
      (lambda_handler ttl rid tS tG tC tA tE (.error e2) st).1 =
        (lambda_handler ttl rid tS tG tC tA tE (.error e) st).1) := by
  have h := @get_cached_data_miss_err ttl tG st e hmiss
  refine ⟨?_, ?_, ?_, ?_⟩
  · simp [lambda_handler, h]
  · simp [lambda_handler, h]
  · simp [lambda_handler, h, serializeBody, serializeError]
  · intro e2
    have h2 := @get_cached_data_miss_err ttl tG st e2 hmiss
    simp [lambda_handler, h, h2]

/-- C5 witness: concrete failed fetch on the empty cache. -/
theorem C5_witness :
    ((lambda_handler 300 "req-1" 0 0 0 0 0 (.error "boom")
        initialCache).1.statusCode = 500) ∧
    ((lambda_handler 300 "req-1" 0 0 0 0 0 (.error "boom")
        initialCache).1.body = .err ⟨"Internal Server Error", "req-1"⟩) ∧
    (serializeBody (lambda_handler 300 "req-1" 0 0 0 0 0 (.error "boom")
        initialCache).1.body =
      .pdict [("error", .pstr "Internal Server Error"),
              ("request_id", .pstr "req-1")]) ∧
    (∀ e2 : String,
      (lambda_handler 300 "req-1" 0 0 0 0 0 (.error e2) initialCache).1 =
        (lambda_handler 300 "req-1" 0 0 0 0 0 (.error "boom")
          initialCache).1) :=
  C5_error_response_shape 300 "req-1" 0 0 0 0 0 "boom" initialCache
    (by simp [cacheValid, dataTruthy, initialCache])

/-- C6: every successful handler call returns status 200 with a body having
exactly the fields data, count, cached and cache_age_seconds (after
serialization: exactly those four keys, in that order), where count is the
length of data and data is the record list produced by the cache-or-fetch
step; the headers carry the hit/miss indicator, the request identifier and
a response time. -/
theorem C6_success_response_shape (ttl : ℚ) (rid : String)
    (tS tG tC tA tE : ℚ) (scan : Except String (List Record))
    (st : CacheState) (items : List Record) (st2 : CacheState) (hit : Bool)
    (hok : get_cached_data ttl tG scan st = .ok (items, st2, hit)) :
    ((lambda_handler ttl rid tS tG tC tA tE scan st).1.statusCode = 200) ∧
    ((lambda_handler ttl rid tS tG tC tA tE scan st).1.body =
      .ok ⟨items, items.length, decide (tC - st2.timestamp < ttl),
           round2 (tA - st2.timestamp)⟩) ∧
    (pdictKeys (serializeBody
        (lambda_handler ttl rid tS tG tC tA tE scan st).1.body) =
      ["data", "count", "cached", "cache_age_seconds"]) ∧
    ((lambda_handler ttl rid tS tG tC tA tE scan st).1.headers =
      ⟨"application/json",
       some (if tC - st2.timestamp < ttl then "HIT" else "MISS"),
       rid, round2 ((tE - tS) * 1000)⟩) := by
  refine ⟨?_, ?_, ?_, ?_⟩ <;>
    simp [lambda_handler, hok, serializeBody, serializeSuccess,
      DecimalEncoder, DecimalEncoderDict, pdictKeys]

/-- C6 witness: cold-start success instance. -/
theorem C6_witness :
    ((lambda_handler 300 "req-1" 1000 1000 1000 1000 1000 (.ok [testRecord])
        initialCache).1.statusCode = 200) ∧
    (pdictKeys (serializeBody
        (lambda_handler 300 "req-1" 1000 1000 1000 1000 1000 (.ok [testRecord])
          initialCache).1.body) =
      ["data", "count", "cached", "cache_age_seconds"]) :=
  let h := C6_success_response_shape 300 "req-1" 1000 1000 1000 1000 1000
    (.ok [testRecord]) initialCache [testRecord] ⟨some [testRecord], 1000⟩ false
    (by norm_num [get_cached_data, cacheValid, dataTruthy, initialCache])
  ⟨h.1, h.2.2.1⟩

/-- C7 counterexample: the cache holds a snapshot (the empty one, stored at
time 0) whose age 1 is below the ttl 300, yet the handler call mutates the
cache: the validity check rejects the empty snapshot, so the call fetches
and restamps. -/
theorem C7_counterexample :
    (1:ℚ) - 0 < 300 ∧
    (lambda_handler 300 "req-1" 1 1 1 1 1 (.ok [testRecord])
        ⟨some [], 0⟩).2 = ⟨some [testRecord], 1⟩ ∧
    ¬ ((lambda_handler 300 "req-1" 1 1 1 1 1 (.ok [testRecord])
        ⟨some [], 0⟩).2 = ⟨some [], 0⟩) := by
  have hev : (lambda_handler 300 "req-1" 1 1 1 1 1 (.ok [testRecord])
      ⟨some [], 0⟩).2 = ⟨some [testRecord], 1⟩ := by
    norm_num [lambda_handler, get_cached_data, cacheValid, dataTruthy]
  refine ⟨by norm_num, hev, ?_⟩
  rw [hev]
  intro hcontr
  have ht := congrArg CacheState.timestamp hcontr
  norm_num at ht

/-- C7 (amended): for every cache state holding a NON-EMPTY snapshot whose
age at the validity-check reading is below the ttl, the check returns that
snapshot and the whole handler call leaves the cache's snapshot and
timestamp unchanged. -/
theorem C7_hit_pure_read (ttl : ℚ) (rid : String) (tS tG tC tA tE : ℚ)
    (scan : Except String (List Record)) (st : CacheState)
    (items : List Record) (hdata : st.data = some items) (hne : items ≠ [])
    (hfresh : tG - st.timestamp < ttl) :
    get_cached_data ttl tG scan st = .ok (items, st, true) ∧
    (lambda_handler ttl rid tS tG tC tA tE scan st).2 = st := by
  have h := @get_cached_data_hit ttl tG st items scan hdata hne hfresh
  exact ⟨h, by simp [lambda_handler, h]⟩

/-- C7 witness: warm hit at time 10 on a non-empty snapshot stored at 0. -/
theorem C7_witness :
    get_cached_data 300 10 (.ok []) ⟨some [testRecord], 0⟩ =
      .ok ([testRecord], ⟨some [testRecord], 0⟩, true) ∧
    (lambda_handler 300 "req-1" 10 10 10 10 10 (.ok [])
        ⟨some [testRecord], 0⟩).2 = ⟨some [testRecord], 0⟩ :=
  C7_hit_pure_read 300 "req-1" 10 10 10 10 10 (.ok []) ⟨some [testRecord], 0⟩
    [testRecord] rfl (by simp) (by norm_num)

/-- C8: Decimal values are serialized outward as floats: the encoder maps
every Decimal to its float conversion, and the serialized JSON body of any
handler call — success or failure, whatever Decimals the records carry —
contains no Decimal representation. -/
theorem C8_decimal_encoding (ttl : ℚ) (rid : String) (tS tG tC tA tE : ℚ)
    (scan : Except String (List Record)) (st : CacheState) :
    (∀ q : ℚ, DecimalEncoder (.pdec q) = .pfloat q) ∧
    noDecimal (serializeBody
      (lambda_handler ttl rid tS tG tC tA tE scan st).1.body) = true := by
  refine ⟨fun q => by simp [DecimalEncoder], ?_⟩
  cases hgc : get_cached_data ttl tG scan st with
  | error e =>
      simp [lambda_handler, hgc, serializeBody, serializeError, noDecimal,
        noDecimalDict]
  | ok v =>
      obtain ⟨items, st2, hit⟩ := v
      have hgoal : serializeBody
          (lambda_handler ttl rid tS tG tC tA tE scan st).1.body =
          DecimalEncoder (.pdict
            [("data", .plist (items.map fun r => .pdict r)),
             ("count", .pint items.length),
             ("cached", .pbool (decide (tC - st2.timestamp < ttl))),
             ("cache_age_seconds", .pfloat (round2 (tA - st2.timestamp)))]) := by
        simp [lambda_handler, hgc, serializeBody, serializeSuccess]
      rw [hgoal]
      exact noDecimal_encode _

/-- C9: an empty snapshot is never a cache hit: a miss whose fetch returns
the empty record list stores it with a fresh timestamp, yet every later
call — at any time, even within the ttl — fails the validity test (which
requires truthy, i.e. non-empty, cached data) and performs a fresh
retrieval: the fetched result is returned and stored on success, the
error propagates on failure. -/
theorem C9_empty_snapshot_never_hit (ttl now ts t2 : ℚ) (st : CacheState)
    (hmiss : cacheValid ttl now st = false) :
    (get_cached_data ttl now (.ok []) st = .ok ([], ⟨some [], now⟩, false)) ∧
    (cacheValid ttl t2 ⟨some [], ts⟩ = false) ∧
    (∀ fresh : List Record,
      get_cached_data ttl t2 (.ok fresh) ⟨some [], ts⟩ =
        .ok (fresh, ⟨some fresh, t2⟩, false)) ∧
    (∀ e : String,
      get_cached_data ttl t2 (.error e) ⟨some [], ts⟩ = .error e) := by
  have hempty : cacheValid ttl t2 ⟨some [], ts⟩ = false := by
    simp [cacheValid, dataTruthy]
  exact ⟨get_cached_data_miss_ok hmiss, hempty,
    fun fresh => get_cached_data_miss_ok hempty,
    fun e => get_cached_data_miss_err hempty⟩

/-- C9 witness: the empty fetch result is cached at time 0, and at time 1
(well within ttl 300) the cache is invalid and both fetch outcomes pass
through. -/
theorem C9_witness :
    (get_cached_data 300 0 (.ok []) initialCache =
      .ok ([], ⟨some [], 0⟩, false)) ∧
    (cacheValid 300 1 ⟨some [], 0⟩ = false) ∧
    (get_cached_data 300 1 (.ok [testRecord]) ⟨some [], 0⟩ =
      .ok ([testRecord], ⟨some [testRecord], 1⟩, false)) ∧
    (get_cached_data 300 1 (.error "boom") ⟨some [], 0⟩ = .error "boom") :=
  let h := C9_empty_snapshot_never_hit 300 0 0 1 initialCache
    (by simp [cacheValid, dataTruthy, initialCache])
  ⟨h.1, h.2.1, h.2.2.1 [testRecord], h.2.2.2 "boom"⟩

/-- C10: assuming a positive ttl and that the post-retrieval cached-status
re-check observes a reading not yet expired relative to the cache
timestamp left by the fetch-or-hit step (observing the same reading as a
miss's cache update is the age-zero special case), every successful
response reports `cached := true` in its body and `X-Cache-Status: HIT`
in its headers; and for every value of the re-check reading the body's
cached field agrees with the header (`HIT` iff cached) — including the
response produced by the miss that performed the fetch. -/
theorem C10_cached_true_on_success (ttl : ℚ) (rid : String)
    (tS tG tC tA tE : ℚ) (scan : Except String (List Record))
    (st : CacheState) (items : List Record) (st2 : CacheState) (hit : Bool)
    (hok : get_cached_data ttl tG scan st = .ok (items, st2, hit))
    (_h0 : 0 < ttl) (hchk : tC - st2.timestamp < ttl) :
    (bodySaysCached
      (lambda_handler ttl rid tS tG tC tA tE scan st).1.body = true) ∧
    ((lambda_handler ttl rid tS tG tC tA tE scan st).1.headers.xCacheStatus =
      some "HIT") ∧
    (∀ tC2 : ℚ,
      ((lambda_handler ttl rid tS tG tC2 tA tE scan st).1.headers.xCacheStatus =
          some "HIT") ↔
        bodySaysCached
          (lambda_handler ttl rid tS tG tC2 tA tE scan st).1.body = true) := by
  refine ⟨?_, ?_, ?_⟩
  · simp [lambda_handler, hok, bodySaysCached, hchk]
  · simp [lambda_handler, hok, hchk]
  · intro tC2
    by_cases hc : tC2 - st2.timestamp < ttl <;>
      simp [lambda_handler, hok, bodySaysCached, hc]

/-- C10 witness: the cold-start miss itself (hit flag false) reports
`cached := true` and `HIT`, and body and header agree at another re-check
reading. -/
theorem C10_witness :
    (bodySaysCached (lambda_handler 300 "req-1" 1000 1000 1000 1000 1000
        (.ok [testRecord]) initialCache).1.body = true) ∧
    ((lambda_handler 300 "req-1" 1000 1000 1000 1000 1000 (.ok [testRecord])
        initialCache).1.headers.xCacheStatus = some "HIT") ∧
    (((lambda_handler 300 "req-1" 1000 1000 999999 1000 1000 (.ok [testRecord])
        initialCache).1.headers.xCacheStatus = some "HIT") ↔
      bodySaysCached (lambda_handler 300 "req-1" 1000 1000 999999 1000 1000
        (.ok [testRecord]) initialCache).1.body = true) :=
  let h := C10_cached_true_on_success 300 "req-1" 1000 1000 1000 1000 1000
    (.ok [testRecord]) initialCache [testRecord] ⟨some [testRecord], 1000⟩ false
    (by norm_num [get_cached_data, cacheValid, dataTruthy, initialCache])
    (by norm_num) (by norm_num)
  ⟨h.1, h.2.1, h.2.2 999999⟩
